import Mathlib

/-!
Verification of the Generation-Validation-Scoring-Deduplication pipeline
(`src/config.py`, `src/article_generator.py`, `src/deduplication.py`,
`src/scorer.py`).

Modelling conventions:
* Python floats appear here as exact rationals (`ℚ`).  Every float
  expression of the scorer whose value matters (`int(max_score * 0.7)`
  and friends) evaluates to an exact integer in IEEE double precision,
  and those integers are used below (14, 10, 16, 12, 8, 6, 4, 2).
* Python `round` (banker's rounding, exact on the half-integer floats
  produced by `_score_structure`) is `roundHalfEven`.
* Quantities that the code derives from raw text via regular expressions
  or the external `textstat` library (list-item counts, bold-term counts,
  Flesch score, sentence word counts, unique source domains, ...) enter
  the arithmetic as explicit parameters; the theorems quantify over them,
  hence cover every value the regexes can produce.
* The external embedding model and cosine-similarity computation of
  `deduplication.py` are an opaque similarity matrix `sim : ℕ → ℕ → ℚ`.
-/

namespace GeoGso

/-- Config constant `MIN_H2_SECTIONS` from `src/config.py`. -/
def MIN_H2_SECTIONS : ℕ := 4

/-- Config constant `MIN_FAQ_QUESTIONS` from `src/config.py`. -/
def MIN_FAQ_QUESTIONS : ℕ := 5

/-- Config constant `MIN_SOURCES` from `src/config.py`. -/
def MIN_SOURCES : ℕ := 3

/-- Config constant `META_DESC_MIN` from `src/config.py`. -/
def META_DESC_MIN : ℕ := 150

/-- Config constant `META_DESC_MAX` from `src/config.py`. -/
def META_DESC_MAX : ℕ := 160

/-- Config constant `MAX_INTRO_LINES` from `src/config.py`. -/
def MAX_INTRO_LINES : ℕ := 5

/-- Config constant `MIN_TAKEAWAYS` from `src/config.py`. -/
def MIN_TAKEAWAYS : ℕ := 5

/-- Config constant `SIMILARITY_THRESHOLD` from `src/config.py`
(default environment value `"0.85"`). -/
def SIMILARITY_THRESHOLD : ℚ := 85/100

/-- Each entry of `SCORE_WEIGHTS` in `src/config.py` is 20. -/
def SCORE_WEIGHT : ℕ := 20

/-- Python 3 `round` to an integer: round half to even (banker's
rounding).  The scorer only applies it to floats that are exact
multiples of 1/2, where IEEE arithmetic is exact, so the rational
model is faithful. -/
def roundHalfEven (q : ℚ) : ℤ :=
  let fl := Int.floor q
  let fr := q - (fl : ℚ)
  if fr < 1/2 then fl
  else if 1/2 < fr then fl + 1
  else if 2 ∣ fl then fl else fl + 1

/-- Python `round(x, 4)` used on similarity values in
`deduplication.py`. -/
def round4 (q : ℚ) : ℚ := (roundHalfEven (q * 10000) : ℚ) / 10000

/-- Python `f"{x:.2f}"` formatting used in the duplication warnings of
`scorer.py` (two decimal places, rounding half to even). -/
def format2 (q : ℚ) : String :=
  let h := roundHalfEven (q * 100)
  let ip := h / 100
  let fp := h % 100
  let fps := if fp < 10 then "0" ++ toString fp else toString fp
  toString ip ++ "." ++ fps

/-- The `ArticleData` dataclass of `src/article_generator.py`.
`faq` entries are (question, answer) pairs; `authorName` is
`author.get("name")` (the only author field the scorer and validator
consult). -/
structure ArticleData where
  topic : String := ""
  language : String := ""
  tone : String := ""
  slug : String := ""
  title : String := ""
  meta_description : String := ""
  content_markdown : String := ""
  faq : List (String × String) := []
  sources : List String := []
  authorName : String := ""
  key_takeaways : List String := []
  h2_count : ℕ := 0
  intro_lines : ℕ := 0
  validation_errors : List String := []
deriving Repr, DecidableEq, Inhabited

/-- `ArticleGenerator._validate` from `src/article_generator.py`:
ordered list of structural violations.  Python builds the list by
successive `append`s; the concatenation below lists the checks in the
same order.  `bool(article.title)` is emptiness of the string. -/
def validate (a : ArticleData) : List String :=
  (if a.title = "" then ["Missing H1 title"] else []) ++
  (if a.meta_description = "" then ["Missing meta description"]
   else if a.meta_description.length < META_DESC_MIN ∨
           a.meta_description.length > META_DESC_MAX + 20 then
     ["Meta description length " ++ toString a.meta_description.length ++
      " chars (target: " ++ toString META_DESC_MIN ++ "-" ++ toString META_DESC_MAX ++ ")"]
   else []) ++
  (if a.h2_count < MIN_H2_SECTIONS then
     ["Only " ++ toString a.h2_count ++ " H2 body sections (minimum: " ++
      toString MIN_H2_SECTIONS ++ ")"]
   else []) ++
  (if a.faq.length < MIN_FAQ_QUESTIONS then
     ["Only " ++ toString a.faq.length ++ " FAQ questions (minimum: " ++
      toString MIN_FAQ_QUESTIONS ++ ")"]
   else []) ++
  (if a.sources.length < MIN_SOURCES then
     ["Only " ++ toString a.sources.length ++ " sources (minimum: " ++
      toString MIN_SOURCES ++ ")"]
   else []) ++
  (if a.key_takeaways.length < MIN_TAKEAWAYS then
     ["Only " ++ toString a.key_takeaways.length ++ " takeaways (minimum: " ++
      toString MIN_TAKEAWAYS ++ ")"]
   else [])

/-- `_parse_faq` from `src/article_generator.py`, with the two regular
expressions abstracted: `primary` stands for the matches of the bold
"Q: ...?" / "A: ..." pattern (question captured without its final `?`),
`fallback` for the matches of the numbered "N. **question?**" pattern.
The function body mirrors the Python control flow exactly: build the
list from the primary matches, and consult the fallback pattern only
when that list is empty. -/
def parse_faq (primary fallback : String → List (String × String))
    (content : String) : List (String × String) :=
  let faq1 := (primary content).map (fun qa => (qa.1.trim ++ "?", qa.2.trim))
  if faq1 = [] then
    (fallback content).map (fun qa => (qa.1.trim, qa.2.trim))
  else faq1

/-- One pass of the retry loop of `ArticleGenerator.generate`
(`src/article_generator.py`), by recursion on the remaining number of
loop iterations (`fuel`).  `gen k` is the raw text the external LLM
returns on attempt `k` (attempts are 1-based as in the Python `range`);
`parse` stands for `_parse_article` with the fixed
topic/language/tone/slug arguments absorbed.  The result pairs the
returned article with the number of calls made to the generator.
`fuel = 0` (an empty `range`, i.e. `max_retries = 0`) reaches Python's
trailing `return article` with the local `article` unbound — an
`UnboundLocalError` — modelled as `none`. -/
def generateFuel (gen : ℕ → String) (parse : String → ArticleData)
    (attempt : ℕ) : ℕ → Option ArticleData × ℕ
  | 0 => (none, 0)
  | fuel + 1 =>
    let article := parse (gen attempt)
    let errors := validate article
    if errors = [] then (some article, 1)
    else
      match fuel with
      | 0 => (some { article with validation_errors := errors }, 1)
      | f + 1 =>
        let r := generateFuel gen parse (attempt + 1) (f + 1)
        (r.1, r.2 + 1)

/-- `ArticleGenerator.generate` (`src/article_generator.py`): run the
loop `for attempt in range(1, max_retries + 1)`. -/
def generate (gen : ℕ → String) (parse : String → ArticleData)
    (max_retries : ℕ) : Option ArticleData × ℕ :=
  generateFuel gen parse 1 max_retries

/-- One entry of `DeduplicationResult.duplicate_pairs`
(`src/deduplication.py`): the dict
`{"article_1": slug_i, "article_2": slug_j, "similarity": round(sim,4),
"status": "REJECTED" if sim > threshold else "OK"}`. -/
structure DupPair where
  article_1 : String
  article_2 : String
  similarity : ℚ
  status : String
deriving Repr, DecidableEq

/-- The `DeduplicationResult` dataclass of `src/deduplication.py`. -/
structure DeduplicationResult where
  similarity_matrix : List (List ℚ) := []
  duplicate_pairs : List DupPair := []
  max_similarities : List ℚ := []
  threshold : ℚ := SIMILARITY_THRESHOLD
deriving Repr, DecidableEq

/-- Index pairs visited by the nested loop
`for i in range(n): for j in range(i + 1, n)` of
`DeduplicationEngine.analyze`, in visiting order. -/
def pairIndices (n : ℕ) : List (ℕ × ℕ) :=
  ((List.range n).map (fun i =>
    ((List.range n).filter (fun j => i < j)).map (fun j => (i, j)))).flatten

/-- The duplicate-pair record built for index pair `(i, j)` in
`DeduplicationEngine.analyze`.  The conditional on `status` is kept as
written in the source, although it is only evaluated when
`sim > threshold` holds. -/
def mkDupPair (threshold : ℚ) (sim : ℕ → ℕ → ℚ) (slugs : List String)
    (p : ℕ × ℕ) : DupPair :=
  { article_1 := slugs.getD p.1 ""
    article_2 := slugs.getD p.2 ""
    similarity := round4 (sim p.1 p.2)
    status := if threshold < sim p.1 p.2 then "REJECTED" else "OK" }

/-- The body of one iteration of the nested loop of
`DeduplicationEngine.analyze`: update both running maxima and append a
duplicate pair when the similarity strictly exceeds the threshold. -/
def dedupStep (threshold : ℚ) (sim : ℕ → ℕ → ℚ) (slugs : List String)
    (st : List DupPair × List ℚ) (p : ℕ × ℕ) : List DupPair × List ℚ :=
  let s := sim p.1 p.2
  let m1 := st.2.set p.1 (max (st.2.getD p.1 0) s)
  let m2 := m1.set p.2 (max (m1.getD p.2 0) s)
  let pairs := if threshold < s
    then st.1 ++ [mkDupPair threshold sim slugs p]
    else st.1
  (pairs, m2)

namespace DeduplicationEngine

/-- `DeduplicationEngine.__init__` (`src/deduplication.py`):
`self.threshold = threshold or SIMILARITY_THRESHOLD`.  `none` models
the `None` default; a float argument is falsy exactly when it is 0. -/
def initThreshold (t : Option ℚ) : ℚ :=
  match t with
  | none => SIMILARITY_THRESHOLD
  | some x => if x = 0 then SIMILARITY_THRESHOLD else x

/-- `DeduplicationEngine.analyze` (`src/deduplication.py`).  The
external embedding model and `cosine_similarity` are abstracted into
`sim i j`, the entry `sim_matrix[i][j]`.  Batches of fewer than two
articles short-circuit before any embedding work, returning the
all-zero result; otherwise the nested loop is folded over
`pairIndices` and the running maxima are rounded to 4 decimals at the
end, as in the source. -/
def analyze (threshold : ℚ) (sim : ℕ → ℕ → ℚ)
    (articles : List ArticleData) : DeduplicationResult :=
  let n := articles.length
  if n < 2 then
    { max_similarities := List.replicate n 0, threshold := threshold }
  else
    let slugs := articles.map ArticleData.slug
    let res := (pairIndices n).foldl (dedupStep threshold sim slugs)
      ([], List.replicate n 0)
    { similarity_matrix :=
        (List.range n).map (fun i => (List.range n).map (fun j => sim i j))
      duplicate_pairs := res.1
      max_similarities := res.2.map round4
      threshold := threshold }

end DeduplicationEngine

/-- The eight structure checks of `_score_structure` (`src/scorer.py`),
in Python dict-insertion order, paired with their display names. -/
def structureChecks (a : ArticleData) : List (String × Bool) :=
  [("H1 title", a.title ≠ ""),
   ("Meta description", a.meta_description ≠ ""),
   ("Introduction", a.intro_lines > 0),
   ("Body H2 sections (≥4)", a.h2_count ≥ MIN_H2_SECTIONS),
   ("FAQ section (≥5 Q&A)", a.faq.length ≥ MIN_FAQ_QUESTIONS),
   ("Key takeaways (≥5)", a.key_takeaways.length ≥ MIN_TAKEAWAYS),
   ("Sources (≥3)", a.sources.length ≥ MIN_SOURCES),
   ("Author block", a.authorName ≠ "")]

/-- `_score_structure` (`src/scorer.py`): `max_score / len(checks)`
points per passed check (20/8 = 2.5, exact in floating point), then a
1-point penalty for a too-short or too-long meta description (checked
only when present, mutually exclusive) and another for a too-long
introduction; finally `max(0, min(int(round(score)), max_score))`. -/
def score_structure (a : ArticleData) : ℤ × List String :=
  let checks := structureChecks a
  let ppc : ℚ := (SCORE_WEIGHT : ℚ) / 8
  let base : ℚ := ppc * ((checks.filter (fun c => c.2)).length : ℚ)
  let w1 := (checks.filter (fun c => !c.2)).map
      (fun c => "Structure: missing or insufficient — " ++ c.1)
  let mdp : ℤ × List String :=
    if a.meta_description ≠ "" then
      let n := a.meta_description.length
      if n < META_DESC_MIN then
        (1, ["Meta description too short (" ++ toString n ++ " chars, min " ++
             toString META_DESC_MIN ++ ")"])
      else if n > META_DESC_MAX + 20 then
        (1, ["Meta description too long (" ++ toString n ++ " chars, max ~" ++
             toString META_DESC_MAX ++ ")"])
      else (0, [])
    else (0, [])
  let ip : ℤ × List String :=
    if a.intro_lines > MAX_INTRO_LINES then
      (1, ["Introduction too long (" ++ toString a.intro_lines ++ " lines, max " ++
           toString MAX_INTRO_LINES ++ ")"])
    else (0, [])
  let raw : ℚ := base - (mdp.1 : ℚ) - (ip.1 : ℚ)
  (max 0 (min (roundHalfEven raw) 20), w1 ++ mdp.2 ++ ip.2)

/-- `_score_readability` (`src/scorer.py`).  `flesch` is
`textstat.flesch_reading_ease` on the stripped text when `textstat` is
importable (`none` models the fallback path); `sentenceWordCounts`
lists the word counts of the regex-split sentences;  `listItems`
counts bullet lines.  The tier constants are the exact values of
`int(20 * 0.8)`, `int(20 * 0.6)`, `int(20 * 0.4)`, `int(20 * 0.7)`,
`int(20 * 0.5)` in floating point: 16, 12, 8, 14, 10.  The `.0f`
number inside the warning strings is modelled with `roundHalfEven`. -/
def score_readability (flesch : Option ℚ) (sentenceWordCounts : List ℕ)
    (listItems : ℕ) : ℤ × List String :=
  let base : ℤ × List String :=
    match flesch with
    | some f =>
      if f ≥ 50 then (20, [])
      else if f ≥ 30 then (16, [])
      else if f ≥ 20 then
        (12, ["Readability: content may be too complex (Flesch: " ++
              toString (roundHalfEven f) ++ ")"])
      else
        (8, ["Readability: content is very difficult to read (Flesch: " ++
             toString (roundHalfEven f) ++ ")"])
    | none =>
      if sentenceWordCounts ≠ [] then
        let avg : ℚ := (sentenceWordCounts.sum : ℚ) / (sentenceWordCounts.length : ℚ)
        if avg ≤ 20 then (20, [])
        else if avg ≤ 30 then (14, [])
        else (10, ["Readability: average sentence length is " ++
                   toString (roundHalfEven avg) ++ " words"])
      else (10, [])
  let sc := if listItems ≥ 10 then min (base.1 + 2) 20 else base.1
  (sc, base.2)

/-- `_score_sources` (`src/scorer.py`): count tier plus
domain-diversity bonus, clamped to the 20-point max.  `domains` is the
number of unique domains the regex extracts from the URL list.

The source contains a stray bare expression `t` on line 151 (where a
comment was evidently intended); executing the Python function with a
non-empty source list therefore raises `NameError` before the tier is
computed.  The definition below embeds the arithmetic of the
surrounding lines, which is also the behaviour the repository's own
test `test_low_sources_penalty` and the spec (§4.5, §9) require.  Tier
constants are the exact floating-point values of `int(20 * 0.7)` = 14,
`int(20 * 0.5)` = 10, `int(20 * 0.3)` = 6, `int(20 * 0.3)` = 6,
`int(20 * 0.2)` = 4, `int(20 * 0.1)` = 2. -/
def score_sources (count domains : ℕ) : ℤ × List String :=
  if count = 0 then (0, ["Sources: no sources provided"])
  else
    let bw : ℤ × List String :=
      if count ≥ 5 then (14, [])
      else if count ≥ MIN_SOURCES then (10, [])
      else (6, ["Sources: only " ++ toString count ++ " sources (minimum " ++
                toString MIN_SOURCES ++ ")"])
    let divr : ℚ := (domains : ℚ) / (count : ℚ)
    let dw : ℤ × List String :=
      if divr ≥ 8/10 then (6, [])
      else if divr ≥ 5/10 then (4, [])
      else (2, ["Sources: low domain diversity (" ++ toString domains ++
                " unique domains for " ++ toString count ++ " sources)"])
    (min (bw.1 + dw.1) 20, bw.2 ++ dw.2)

/-- Modelled from the spec (§4.5, Sources), score only: base tier by
raw count — 0 gives 0; at least 5 gives 70% of max; at least
`MIN_SOURCES` gives 50%; below gives 30% — plus a diversity bonus from
the unique-domain fraction — at least 0.8 adds 30% of max, at least
0.5 adds 20%, otherwise 10% — clamped to the per-criterion max.
A second definition written from the spec's words, to be compared
against the source-derived `score_sources`. -/
def sourcesSpecScore (count domains : ℕ) : ℤ :=
  if count = 0 then 0
  else
    let base : ℤ :=
      if 5 ≤ count then (SCORE_WEIGHT : ℤ) * 70 / 100
      else if MIN_SOURCES ≤ count then (SCORE_WEIGHT : ℤ) * 50 / 100
      else (SCORE_WEIGHT : ℤ) * 30 / 100
    let bonus : ℤ :=
      if (8 : ℚ)/10 ≤ (domains : ℚ) / (count : ℚ) then (SCORE_WEIGHT : ℤ) * 30 / 100
      else if (5 : ℚ)/10 ≤ (domains : ℚ) / (count : ℚ) then (SCORE_WEIGHT : ℤ) * 20 / 100
      else (SCORE_WEIGHT : ℤ) * 10 / 100
    min (base + bonus) (SCORE_WEIGHT : ℤ)

/-- `_score_llm_friendliness` (`src/scorer.py`): six additive buckets
(FAQ count, list density, bold terms, takeaways, average section word
count, named-entity diversity), capped at 20.  The text-derived counts
are parameters. -/
def score_llm_friendliness (faqLen listItems numberedItems boldTerms
    takeawaysLen : ℕ) (sectionWordCounts : List ℕ)
    (uniqueEntities : ℕ) : ℤ × List String :=
  let t1 : ℤ × List String :=
    if faqLen ≥ 5 then (5, [])
    else if faqLen ≥ 3 then
      (3, ["LLM-friendliness: FAQ has only " ++ toString faqLen ++
           " questions (≥5 recommended)"])
    else (1, ["LLM-friendliness: FAQ too short (" ++ toString faqLen ++ " questions)"])
  let totalLists := listItems + numberedItems
  let t2 : ℤ × List String :=
    if totalLists ≥ 15 then (4, [])
    else if totalLists ≥ 8 then (3, [])
    else if totalLists ≥ 3 then (2, [])
    else (1, ["LLM-friendliness: low use of lists/enumerations"])
  let t3 : ℤ × List String :=
    if boldTerms ≥ 10 then (3, [])
    else if boldTerms ≥ 5 then (2, [])
    else (1, ["LLM-friendliness: few bold/highlighted terms"])
  let t4 : ℤ × List String :=
    if takeawaysLen ≥ MIN_TAKEAWAYS then (3, [])
    else if takeawaysLen ≥ 3 then (2, [])
    else (1, [])
  let t5 : ℤ × List String :=
    if sectionWordCounts ≠ [] then
      let avg : ℚ := (sectionWordCounts.sum : ℚ) / (sectionWordCounts.length : ℚ)
      if 50 ≤ avg ∧ avg ≤ 300 then (3, [])
      else if 30 ≤ avg ∧ avg ≤ 500 then (2, [])
      else (1, ["LLM-friendliness: uneven section sizes (avg " ++
                toString (roundHalfEven avg) ++ " words)"])
    else (1, [])
  let t6 : ℤ × List String :=
    if uniqueEntities ≥ 15 then (2, [])
    else if uniqueEntities ≥ 5 then (1, [])
    else (0, [])
  (min (t1.1 + t2.1 + t3.1 + t4.1 + t5.1 + t6.1) 20,
   t1.2 ++ t2.2 ++ t3.2 ++ t4.2 ++ t5.2 ++ t6.2)

/-- The quantities `ArticleScorer.score` derives from the article text
via regular expressions or `textstat`, gathered as explicit inputs:
the Flesch reading ease (`none` when `textstat` is unavailable),
sentence word counts, bullet-line count, numbered-line count,
bold-term count, per-H2-section word counts (sections after the first
split part), unique capitalised entities, and unique source domains. -/
structure ContentStats where
  flesch : Option ℚ := none
  sentenceWordCounts : List ℕ := []
  listItems : ℕ := 0
  numberedItems : ℕ := 0
  boldTerms : ℕ := 0
  sectionWordCounts : List ℕ := []
  uniqueEntities : ℕ := 0
  uniqueDomains : ℕ := 0
deriving Repr, DecidableEq

/-- The `details` dict of `ScoreResult` (`src/scorer.py`), with its
five keys as fields; the Python key `"structure"` is a Lean keyword
and becomes `structureScore`. -/
structure ScoreDetails where
  structureScore : ℤ
  readability : ℤ
  sources : ℤ
  llm_friendliness : ℤ
  duplication : ℤ
deriving Repr, DecidableEq

/-- The `ScoreResult` dataclass of `src/scorer.py`. -/
structure ScoreResult where
  total : ℤ
  details : ScoreDetails
  warnings : List String
deriving Repr, DecidableEq

namespace ArticleScorer

/-- The duplication tier computed inline in `ArticleScorer.score`
(`src/scorer.py`) from the supplied max-similarity value.  The tier
constants are the exact floating-point values of `int(20 * 0.8)` = 16,
`int(20 * 0.6)` = 12, `int(20 * 0.4)` = 8, `int(20 * 0.1)` = 2. -/
def score_duplication (similarity_score : ℚ) : ℤ × List String :=
  if similarity_score ≤ 3/10 then (20, [])
  else if similarity_score ≤ 5/10 then (16, [])
  else if similarity_score ≤ 7/10 then (12, [])
  else if similarity_score ≤ 85/100 then
    (8, ["Duplication risk: high similarity (" ++ format2 similarity_score ++
         ") with another article"])
  else
    (2, ["Duplication risk: VERY HIGH similarity (" ++ format2 similarity_score ++
         ") — content may be duplicate"])

/-- `ArticleScorer.score` (`src/scorer.py`): the five sub-scores in
order (structure, readability, sources, llm-friendliness, duplication
— the last computed inline from `similarity_score`), warnings
concatenated in the same order, and `total = sum(details.values())`.

Caveat inherited from `score_sources`: the real method calls
`_score_sources` unconditionally, so for any article with a non-empty
source list the Python `score` raises `NameError` at the stray token
of scorer.py line 151 and returns nothing; this definition embeds the
disclosed surrounding arithmetic (the behaviour the spec and the
repository's tests require), so theorems about it describe the
intended result, not the crash. -/
def score (a : ArticleData) (st : ContentStats)
    (similarity_score : ℚ) : ScoreResult :=
  let s1 := score_structure a
  let s2 := score_readability st.flesch st.sentenceWordCounts st.listItems
  let s3 := score_sources a.sources.length st.uniqueDomains
  let s4 := score_llm_friendliness a.faq.length st.listItems st.numberedItems
    st.boldTerms a.key_takeaways.length st.sectionWordCounts st.uniqueEntities
  let dup := score_duplication similarity_score
  { total := s1.1 + s2.1 + s3.1 + s4.1 + dup.1
    details := { structureScore := s1.1, readability := s2.1, sources := s3.1,
                 llm_friendliness := s4.1, duplication := dup.1 }
    warnings := s1.2 ++ s2.2 ++ s3.2 ++ s4.2 ++ dup.2 }

end ArticleScorer

/-- The first check of the validation gate: missing title. -/
def violMissingTitle (a : ArticleData) : List String :=
  if a.title = "" then ["Missing H1 title"] else []

/-- The second check: missing meta description. -/
def violMissingMeta (a : ArticleData) : List String :=
  if a.meta_description = "" then ["Missing meta description"] else []

/-- The third check: meta-description length outside
`[META_DESC_MIN, META_DESC_MAX + 20]`, evaluated only when a meta
description is present (the `elif` of the source). -/
def violMetaLength (a : ArticleData) : List String :=
  if a.meta_description ≠ "" ∧ (a.meta_description.length < META_DESC_MIN ∨
      a.meta_description.length > META_DESC_MAX + 20) then
    ["Meta description length " ++ toString a.meta_description.length ++
     " chars (target: " ++ toString META_DESC_MIN ++ "-" ++ toString META_DESC_MAX ++ ")"]
  else []

/-- The fourth check: insufficient body-section count. -/
def violH2 (a : ArticleData) : List String :=
  if a.h2_count < MIN_H2_SECTIONS then
    ["Only " ++ toString a.h2_count ++ " H2 body sections (minimum: " ++
     toString MIN_H2_SECTIONS ++ ")"]
  else []

/-- The fifth check: insufficient FAQ count. -/
def violFaq (a : ArticleData) : List String :=
  if a.faq.length < MIN_FAQ_QUESTIONS then
    ["Only " ++ toString a.faq.length ++ " FAQ questions (minimum: " ++
     toString MIN_FAQ_QUESTIONS ++ ")"]
  else []

/-- The sixth check: insufficient source count. -/
def violSources (a : ArticleData) : List String :=
  if a.sources.length < MIN_SOURCES then
    ["Only " ++ toString a.sources.length ++ " sources (minimum: " ++
     toString MIN_SOURCES ++ ")"]
  else []

/-- The seventh check: insufficient takeaway count. -/
def violTakeaways (a : ArticleData) : List String :=
  if a.key_takeaways.length < MIN_TAKEAWAYS then
    ["Only " ++ toString a.key_takeaways.length ++ " takeaways (minimum: " ++
     toString MIN_TAKEAWAYS ++ ")"]
  else []

/-! Concrete fixtures used by witnesses and scenario theorems. -/

/-- A minimal article with slug `doc-a`. -/
def docA : ArticleData := { slug := "doc-a" }

/-- A minimal article with slug `doc-b`. -/
def docB : ArticleData := { slug := "doc-b" }

/-- A similarity matrix in which every distinct pair has similarity 0.9. -/
def simNine : ℕ → ℕ → ℚ := fun i j => if i = j then 1 else 9/10

/-- A similarity matrix in which every distinct pair has similarity 0.5. -/
def simHalf : ℕ → ℕ → ℚ := fun i j => if i = j then 1 else 1/2

/-- A generator whose output is always the empty text. -/
def genEmpty : ℕ → String := fun _ => ""

/-- A parser that produces the all-default article for any raw text
(as `_parse_article` does on text that matches no pattern). -/
def parseEmpty : String → ArticleData := fun _ => {}

/-- A primary FAQ matcher returning one fixed match. -/
def primOne : String → List (String × String) := fun _ => [("Q1", "A1")]

/-- A fallback FAQ matcher returning one fixed match. -/
def fallOne : String → List (String × String) := fun _ => [("What now?", "B")]

/-- C4: for a batch of size 0 or 1, `analyze` short-circuits: it
returns an empty duplicate-pair list and an all-zero max-similarity
list of the batch's length, and the result does not depend on the
similarity data at all (no similarity computation is consulted). -/
theorem analyze_small_batch (t : ℚ) (sim sim' : ℕ → ℕ → ℚ)
    (articles : List ArticleData) (h : articles.length < 2) :
    DeduplicationEngine.analyze t sim articles =
      { similarity_matrix := [], duplicate_pairs := [],
        max_similarities := List.replicate articles.length 0, threshold := t } ∧
    DeduplicationEngine.analyze t sim articles =
      DeduplicationEngine.analyze t sim' articles := by
  constructor
  · unfold DeduplicationEngine.analyze
    simp only [if_pos h]
  · unfold DeduplicationEngine.analyze
    simp only [if_pos h]

/-- Witness for C4: a one-article batch yields no pairs and `[0.0]`. -/
theorem analyze_small_batch_witness :
    ([docA] : List ArticleData).length < 2 ∧
    (DeduplicationEngine.analyze SIMILARITY_THRESHOLD simNine [docA] =
      { similarity_matrix := [], duplicate_pairs := [],
        max_similarities := List.replicate [docA].length 0,
        threshold := SIMILARITY_THRESHOLD } ∧
     DeduplicationEngine.analyze SIMILARITY_THRESHOLD simNine [docA] =
      DeduplicationEngine.analyze SIMILARITY_THRESHOLD simHalf [docA]) :=
  ⟨by decide,
   analyze_small_batch SIMILARITY_THRESHOLD simNine simHalf [docA] (by decide)⟩

/-- C10: the constructor treats a falsy threshold argument (an
explicit `0.0` as well as `None`) as absent and substitutes the
default `SIMILARITY_THRESHOLD = 0.85`; consequently, analyzing two
documents of similarity 0.5 under a requested threshold of 0.0
reports no duplicate pair. -/
theorem falsy_threshold_uses_default :
    DeduplicationEngine.initThreshold (some 0) = SIMILARITY_THRESHOLD ∧
    DeduplicationEngine.initThreshold none = SIMILARITY_THRESHOLD ∧
    (DeduplicationEngine.analyze (DeduplicationEngine.initThreshold (some 0))
        simHalf [docA, docB]).duplicate_pairs = [] := by
  have h1 : DeduplicationEngine.initThreshold (some 0) = SIMILARITY_THRESHOLD := by
    norm_num [DeduplicationEngine.initThreshold]
  refine ⟨h1, rfl, ?_⟩
  rw [h1]
  simp only [SIMILARITY_THRESHOLD, DeduplicationEngine.analyze,
    List.length_cons, List.length_nil]
  rw [if_neg (by norm_num)]
  have hpi : pairIndices (0 + 1 + 1) = [(0, 1)] := rfl
  simp only [hpi, List.foldl_cons, List.foldl_nil, dedupStep, simHalf, docA, docB]
  norm_num

/-- C8: the validation gate returns its violations as the
concatenation of the seven checks in the claimed fixed order (missing
title, missing meta description, meta length — checked only when a
meta description is present —, body sections, FAQ, sources,
takeaways), and the report is empty exactly when every check
passes. -/
theorem validate_order_and_empty_iff (a : ArticleData) :
    validate a =
      violMissingTitle a ++ violMissingMeta a ++ violMetaLength a ++
      violH2 a ++ violFaq a ++ violSources a ++ violTakeaways a ∧
    (validate a = [] ↔
      (a.title ≠ "" ∧ a.meta_description ≠ "" ∧
       META_DESC_MIN ≤ a.meta_description.length ∧
       a.meta_description.length ≤ META_DESC_MAX + 20 ∧
       MIN_H2_SECTIONS ≤ a.h2_count ∧ MIN_FAQ_QUESTIONS ≤ a.faq.length ∧
       MIN_SOURCES ≤ a.sources.length ∧ MIN_TAKEAWAYS ≤ a.key_takeaways.length)) := by
  constructor
  · by_cases h : a.meta_description = "" <;>
      simp [validate, violMissingTitle, violMissingMeta, violMetaLength, violH2,
        violFaq, violSources, violTakeaways, h]
  · by_cases h : a.meta_description = ""
    · simp [validate, h]
    · simp [validate, h, List.append_eq_nil]
      omega

/-- The invariant behind C6: with `fuel + 1` loop iterations left and
every attempt failing validation, the loop runs all its iterations,
makes one generator call per iteration, and keeps the last article
with its violations attached. -/
lemma generateFuel_all_invalid (gen : ℕ → String) (parse : String → ArticleData)
    (hv : ∀ k, validate (parse (gen k)) ≠ []) (fuel : ℕ) :
    ∀ attempt, generateFuel gen parse attempt (fuel + 1) =
      (some { parse (gen (attempt + fuel)) with
              validation_errors := validate (parse (gen (attempt + fuel))) },
       fuel + 1) := by
  induction fuel with
  | zero =>
    intro attempt
    simp only [generateFuel, if_neg (hv attempt), Nat.add_zero]
  | succ f ih =>
    intro attempt
    have step := ih (attempt + 1)
    have harith : attempt + 1 + f = attempt + (f + 1) := by omega
    rw [harith] at step
    simp only [generateFuel, if_neg (hv attempt), step]

/-- C6: if validation reports at least one violation on every attempt,
`generate` with `max_retries = N ≥ 1` calls the generator exactly `N`
times and returns the article parsed from the `N`-th attempt with its
non-empty violation list attached (not discarded, not raised). -/
theorem retry_exhaustion (gen : ℕ → String) (parse : String → ArticleData)
    (N : ℕ) (hN : 1 ≤ N) (hv : ∀ k, validate (parse (gen k)) ≠ []) :
    (generate gen parse N).2 = N ∧
    (generate gen parse N).1 =
      some { parse (gen N) with
             validation_errors := validate (parse (gen N)) } ∧
    ∀ a, (generate gen parse N).1 = some a → a.validation_errors ≠ [] := by
  obtain ⟨f, rfl⟩ : ∃ f, N = f + 1 := ⟨N - 1, by omega⟩
  have h := generateFuel_all_invalid gen parse hv f 1
  have harith : 1 + f = f + 1 := by omega
  rw [harith] at h
  unfold generate
  rw [h]
  refine ⟨rfl, rfl, ?_⟩
  intro a ha
  have hb : { parse (gen (f + 1)) with
              validation_errors := validate (parse (gen (f + 1))) } = a := by
    simpa using ha
  rw [← hb]
  exact hv (f + 1)

/-- Witness for C6: with an always-empty generator and a parser whose
output never validates, two attempts make exactly two generator calls
and return the second attempt's article with violations attached. -/
theorem retry_exhaustion_witness :
    (generate genEmpty parseEmpty 2).2 = 2 ∧
    (generate genEmpty parseEmpty 2).1 =
      some { parseEmpty (genEmpty 2) with
             validation_errors := validate (parseEmpty (genEmpty 2)) } ∧
    ∀ a, (generate genEmpty parseEmpty 2).1 = some a → a.validation_errors ≠ [] :=
  retry_exhaustion genEmpty parseEmpty 2 (by decide)
    (fun _ => (by decide : validate ({} : ArticleData) ≠ []))

/-- C7 (counterexample): `generate` invoked with `max_retries = 0`
executes no loop iteration and reaches `return article` with the local
variable unbound (an `UnboundLocalError`, modelled as `none`): no
ParsedArticle is returned, so "always returns a ParsedArticle for
every maxAttempts value" fails at 0. -/
theorem produce_zero_attempts_counterexample :
    (generate genEmpty parseEmpty 0).1 = none ∧
    ¬ ∃ a, (generate genEmpty parseEmpty 0).1 = some a := by
  refine ⟨rfl, ?_⟩
  rintro ⟨a, ha⟩
  exact Option.noConfusion ha

/-- The invariant behind C7: with at least one loop iteration left the
loop always returns an article, and that article either passed
validation or carries its non-empty violation list. -/
lemma generateFuel_total (gen : ℕ → String) (parse : String → ArticleData)
    (fuel : ℕ) :
    ∀ attempt, ∃ a, (generateFuel gen parse attempt (fuel + 1)).1 = some a ∧
      (validate a = [] ∨ a.validation_errors ≠ []) := by
  induction fuel with
  | zero =>
    intro attempt
    by_cases h : validate (parse (gen attempt)) = []
    · exact ⟨parse (gen attempt), by simp [generateFuel, h], Or.inl h⟩
    · refine ⟨{ parse (gen attempt) with
                validation_errors := validate (parse (gen attempt)) },
        by simp [generateFuel, h], Or.inr h⟩
  | succ f ih =>
    intro attempt
    by_cases h : validate (parse (gen attempt)) = []
    · exact ⟨parse (gen attempt), by simp [generateFuel, h], Or.inl h⟩
    · obtain ⟨a, ha, hp⟩ := ih (attempt + 1)
      exact ⟨a, by simp [generateFuel, h, ha], hp⟩

/-- C7 (amended): for every generator output, parser behaviour and
`max_retries = N ≥ 1`, `generate` returns an article (it never raises
for structural reasons), and structural violations are attached to the
returned value: the returned article either validates cleanly or
carries a non-empty violation list. -/
theorem produce_always_returns (gen : ℕ → String) (parse : String → ArticleData)
    (N : ℕ) (hN : 1 ≤ N) :
    ∃ a, (generate gen parse N).1 = some a ∧
      (validate a = [] ∨ a.validation_errors ≠ []) := by
  obtain ⟨f, rfl⟩ : ∃ f, N = f + 1 := ⟨N - 1, by omega⟩
  exact generateFuel_total gen parse f 1

/-- Witness for C7 (amended): one attempt on the empty generator
returns an article carrying its violations. -/
theorem produce_always_returns_witness :
    ∃ a, (generate genEmpty parseEmpty 1).1 = some a ∧
      (validate a = [] ∨ a.validation_errors ≠ []) :=
  produce_always_returns genEmpty parseEmpty 1 (by decide)

/-- C5 (counterexample): for two documents of similarity 0.90 under
threshold 0.85, exactly one DuplicatePair is emitted, but its status is
`"REJECTED"`; no emitted pair carries the status `"flagged"` the claim
asserts. -/
theorem flagged_status_counterexample :
    (DeduplicationEngine.analyze (85/100) simNine [docA, docB]).duplicate_pairs =
      [{ article_1 := "doc-a", article_2 := "doc-b",
         similarity := 9/10, status := "REJECTED" }] ∧
    ¬ ∃ p ∈ (DeduplicationEngine.analyze (85/100) simNine [docA, docB]).duplicate_pairs,
        p.status = "flagged" := by
  have he : (DeduplicationEngine.analyze (85/100) simNine [docA, docB]).duplicate_pairs =
      [{ article_1 := "doc-a", article_2 := "doc-b",
         similarity := 9/10, status := "REJECTED" }] := by
    simp only [DeduplicationEngine.analyze, List.length_cons, List.length_nil]
    rw [if_neg (by norm_num)]
    have hpi : pairIndices (0 + 1 + 1) = [(0, 1)] := rfl
    simp only [hpi, List.foldl_cons, List.foldl_nil, dedupStep, simNine, docA, docB, mkDupPair]
    norm_num [round4, roundHalfEven]
  refine ⟨he, ?_⟩
  rw [he]
  rintro ⟨p, hp, hs⟩
  simp only [List.mem_singleton] at hp
  subst hp
  exact absurd hs (by decide)

/-- C5 (amended): for two documents of similarity 0.90 under threshold
0.85, the duplication sub-score of each equals 2 (10% of the 20-point
max) with the VERY-HIGH-similarity warning, and exactly one
DuplicatePair is emitted for the pair — carrying status `"REJECTED"`
(not `"flagged"`). -/
theorem similarity_090_scenario :
    (DeduplicationEngine.analyze (85/100) simNine [docA, docB]).duplicate_pairs =
      [{ article_1 := "doc-a", article_2 := "doc-b",
         similarity := 9/10, status := "REJECTED" }] ∧
    (ArticleScorer.score docA {} (9/10)).details.duplication = 2 ∧
    "Duplication risk: VERY HIGH similarity (0.90) — content may be duplicate" ∈
      (ArticleScorer.score docA {} (9/10)).warnings ∧
    (ArticleScorer.score docB {} (9/10)).details.duplication = 2 ∧
    "Duplication risk: VERY HIGH similarity (0.90) — content may be duplicate" ∈
      (ArticleScorer.score docB {} (9/10)).warnings := by
  have hr : roundHalfEven ((9:ℚ)/10 * 100) = 90 := by norm_num [roundHalfEven]
  refine ⟨?_, ?_, ?_, ?_, ?_⟩
  · simp only [DeduplicationEngine.analyze, List.length_cons, List.length_nil]
    rw [if_neg (by norm_num)]
    have hpi : pairIndices (0 + 1 + 1) = [(0, 1)] := rfl
    simp only [hpi, List.foldl_cons, List.foldl_nil, dedupStep, simNine, docA, docB, mkDupPair]
    norm_num [round4, roundHalfEven]
  · simp only [ArticleScorer.score, ArticleScorer.score_duplication]
    rw [if_neg (by norm_num), if_neg (by norm_num), if_neg (by norm_num), if_neg (by norm_num)]
  · simp only [ArticleScorer.score, ArticleScorer.score_duplication]
    rw [if_neg (by norm_num), if_neg (by norm_num), if_neg (by norm_num), if_neg (by norm_num)]
    simp only [format2, hr, List.mem_append, List.mem_singleton]
    exact Or.inr (by decide)
  · simp only [ArticleScorer.score, ArticleScorer.score_duplication]
    rw [if_neg (by norm_num), if_neg (by norm_num), if_neg (by norm_num), if_neg (by norm_num)]
  · simp only [ArticleScorer.score, ArticleScorer.score_duplication]
    rw [if_neg (by norm_num), if_neg (by norm_num), if_neg (by norm_num), if_neg (by norm_num)]
    simp only [format2, hr, List.mem_append, List.mem_singleton]
    exact Or.inr (by decide)

/-- C9: the parsed FAQ list is the primary pattern's matches whenever
the primary pattern matched at least once; the fallback pattern's
matches are used exactly when the primary yielded zero matches; the
result always equals one of the two wholesale (never a mixture). -/
theorem faq_primary_precedence (primary fallback : String → List (String × String))
    (c : String) :
    (primary c ≠ [] →
      parse_faq primary fallback c =
        (primary c).map (fun qa => (qa.1.trim ++ "?", qa.2.trim))) ∧
    (primary c = [] →
      parse_faq primary fallback c =
        (fallback c).map (fun qa => (qa.1.trim, qa.2.trim))) ∧
    (parse_faq primary fallback c =
        (primary c).map (fun qa => (qa.1.trim ++ "?", qa.2.trim)) ∨
     parse_faq primary fallback c =
        (fallback c).map (fun qa => (qa.1.trim, qa.2.trim))) := by
  unfold parse_faq
  refine ⟨?_, ?_, ?_⟩
  · intro h
    rw [if_neg (by simpa using h)]
  · intro h
    rw [h]
    simp
  · by_cases h : primary c = []
    · right; rw [h]; simp
    · left; rw [if_neg (by simpa using h)]

/-- Witness for C9: with a primary matcher that matches once, the
result is exactly the primary match (trimmed, `?` restored). -/
theorem faq_primary_precedence_witness :
    primOne "" ≠ [] ∧
    parse_faq primOne fallOne "" =
      (primOne "").map (fun qa => (qa.1.trim ++ "?", qa.2.trim)) :=
  ⟨by decide, (faq_primary_precedence primOne fallOne "").1 (by decide)⟩

/-- Comparing a quotient of casts with a positive fraction reduces to
a natural-number inequality. -/
lemma div_ge_frac_iff (c d p q : ℕ) (hc : c ≠ 0) (hq : 0 < q) :
    ((d : ℚ) / (c : ℚ) ≥ (p : ℚ) / (q : ℚ)) ↔ p * c ≤ d * q := by
  have hc0 : (0 : ℚ) < c := by
    exact_mod_cast Nat.pos_of_ne_zero hc
  have hq0 : (0 : ℚ) < q := by exact_mod_cast hq
  rw [ge_iff_le, div_le_div_iff₀ hq0 hc0]
  exact_mod_cast Iff.rfl

/-- C1: the sources sub-score follows the spec's tiering — base tier
on the raw count plus a domain-diversity bonus, clamped to the
20-point max (`sourcesSpecScore` is the spec's wording) — a warning is
attached exactly when the count is below the minimum (or zero) or the
unique-domain fraction is below 0.5, and an article with exactly one
source scores below 15 with the warning
"Sources: only 1 sources (minimum 3)". -/
theorem sources_tiering (count domains : ℕ) :
    (score_sources count domains).1 = sourcesSpecScore count domains ∧
    ((score_sources count domains).2 ≠ [] ↔
      (count < MIN_SOURCES ∨ 2 * domains < count)) ∧
    (score_sources 1 domains).1 < 15 ∧
    "Sources: only 1 sources (minimum 3)" ∈ (score_sources 1 domains).2 := by
  refine ⟨?_, ?_, ?_, ?_⟩
  · by_cases h0 : count = 0
    · simp [score_sources, sourcesSpecScore, h0]
    · simp only [score_sources, sourcesSpecScore, SCORE_WEIGHT, MIN_SOURCES]
      rw [if_neg h0, if_neg h0]
      have e1 : ((8 : ℚ)/10 ≤ (domains : ℚ) / (count : ℚ)) ↔ 8 * count ≤ domains * 10 := by
        simpa [ge_iff_le] using div_ge_frac_iff count domains 8 10 h0 (by norm_num)
      have e2 : ((5 : ℚ)/10 ≤ (domains : ℚ) / (count : ℚ)) ↔ 5 * count ≤ domains * 10 := by
        simpa [ge_iff_le] using div_ge_frac_iff count domains 5 10 h0 (by norm_num)
      simp only [ge_iff_le, e1, e2]
      split_ifs <;> norm_num
  · by_cases h0 : count = 0
    · simp [score_sources, h0, MIN_SOURCES]
    · simp only [score_sources, MIN_SOURCES]
      rw [if_neg h0]
      have e1 : ((8 : ℚ)/10 ≤ (domains : ℚ) / (count : ℚ)) ↔ 8 * count ≤ domains * 10 := by
        simpa [ge_iff_le] using div_ge_frac_iff count domains 8 10 h0 (by norm_num)
      have e2 : ((5 : ℚ)/10 ≤ (domains : ℚ) / (count : ℚ)) ↔ 5 * count ≤ domains * 10 := by
        simpa [ge_iff_le] using div_ge_frac_iff count domains 5 10 h0 (by norm_num)
      simp only [ge_iff_le, e1, e2]
      split_ifs <;> simp <;> omega
  · simp only [score_sources, MIN_SOURCES]
    rw [if_neg (by norm_num)]
    split_ifs <;> first | (exfalso; omega) | norm_num
  · simp only [score_sources, MIN_SOURCES]
    rw [if_neg (by norm_num)]
    split_ifs <;>
      first
        | (exfalso; omega)
        | (simp only [List.mem_append, List.mem_singleton]; exact Or.inl (by decide))

/-- The structure sub-score is clamped to [0, 20]. -/
lemma score_structure_bounds (a : ArticleData) :
    0 ≤ (score_structure a).1 ∧ (score_structure a).1 ≤ 20 := by
  simp only [score_structure]
  exact ⟨le_max_left 0 _, max_le (by norm_num) (min_le_right _ _)⟩

/-- The readability sub-score lies in [0, 20] on every tier. -/
lemma score_readability_bounds (f : Option ℚ) (sw : List ℕ) (li : ℕ) :
    0 ≤ (score_readability f sw li).1 ∧ (score_readability f sw li).1 ≤ 20 := by
  cases f with
  | none =>
    simp only [score_readability]
    split_ifs <;> norm_num
  | some q =>
    simp only [score_readability]
    split_ifs <;> norm_num

/-- The sources sub-score lies in [0, 20] on every tier. -/
lemma score_sources_bounds (c d : ℕ) :
    0 ≤ (score_sources c d).1 ∧ (score_sources c d).1 ≤ 20 := by
  simp only [score_sources]
  split_ifs <;> norm_num

/-- The llm-friendliness sub-score lies in [0, 20]. -/
lemma score_llm_friendliness_bounds (a b c d e : ℕ) (sw : List ℕ) (u : ℕ) :
    0 ≤ (score_llm_friendliness a b c d e sw u).1 ∧
    (score_llm_friendliness a b c d e sw u).1 ≤ 20 := by
  constructor
  · simp only [score_llm_friendliness]
    refine le_min ?_ (by norm_num)
    refine add_nonneg (add_nonneg (add_nonneg (add_nonneg (add_nonneg ?_ ?_) ?_) ?_) ?_) ?_ <;>
      split_ifs <;> norm_num
  · simp only [score_llm_friendliness]
    exact min_le_right _ _

/-- The duplication sub-score lies in [0, 20] on every tier. -/
lemma score_duplication_bounds (s : ℚ) :
    0 ≤ (ArticleScorer.score_duplication s).1 ∧
    (ArticleScorer.score_duplication s).1 ≤ 20 := by
  simp only [ArticleScorer.score_duplication]
  split_ifs <;> norm_num

/-- C2: for every article, every text-derived statistic vector and
every max-similarity value, the total equals the sum of the five
sub-scores, lies in [0, 100], and each sub-score lies in [0, 20].
Proved of the embedded arithmetic; the running program only realises
it for articles with an empty source list, because for any non-empty
source list `_score_sources` raises `NameError` at the stray bare `t`
of scorer.py line 151 before `score` can return (the same defect as
C1), so the claim's "score returns a ScoreBreakdown for every
ParsedArticle" fails on exactly that class of inputs. -/
theorem score_total_and_bounds (a : ArticleData) (st : ContentStats) (ms : ℚ) :
    (ArticleScorer.score a st ms).total =
      (ArticleScorer.score a st ms).details.structureScore +
        (ArticleScorer.score a st ms).details.readability +
        (ArticleScorer.score a st ms).details.sources +
        (ArticleScorer.score a st ms).details.llm_friendliness +
        (ArticleScorer.score a st ms).details.duplication ∧
    0 ≤ (ArticleScorer.score a st ms).total ∧
    (ArticleScorer.score a st ms).total ≤ 100 ∧
    (0 ≤ (ArticleScorer.score a st ms).details.structureScore ∧
      (ArticleScorer.score a st ms).details.structureScore ≤ 20) ∧
    (0 ≤ (ArticleScorer.score a st ms).details.readability ∧
      (ArticleScorer.score a st ms).details.readability ≤ 20) ∧
    (0 ≤ (ArticleScorer.score a st ms).details.sources ∧
      (ArticleScorer.score a st ms).details.sources ≤ 20) ∧
    (0 ≤ (ArticleScorer.score a st ms).details.llm_friendliness ∧
      (ArticleScorer.score a st ms).details.llm_friendliness ≤ 20) ∧
    (0 ≤ (ArticleScorer.score a st ms).details.duplication ∧
      (ArticleScorer.score a st ms).details.duplication ≤ 20) := by
  have h1 := score_structure_bounds a
  have h2 := score_readability_bounds st.flesch st.sentenceWordCounts st.listItems
  have h3 := score_sources_bounds a.sources.length st.uniqueDomains
  have h4 := score_llm_friendliness_bounds a.faq.length st.listItems st.numberedItems
    st.boldTerms a.key_takeaways.length st.sectionWordCounts st.uniqueEntities
  have h5 := score_duplication_bounds ms
  simp only [ArticleScorer.score]
  refine ⟨trivial, ?_, ?_, ?_, ?_, ?_, ?_, ?_⟩ <;> omega

/-- Membership in the nested-loop index list: exactly the pairs
`i < j < n`. -/
lemma mem_pairIndices {n i j : ℕ} :
    (i, j) ∈ pairIndices n ↔ i < j ∧ j < n := by
  have h : (i, j) ∈ pairIndices n ↔ (i < n ∧ j < n ∧ i < j) := by
    simp [pairIndices]
  rw [h]
  omega

/-- The nested loop visits each index pair at most once. -/
lemma pairIndices_nodup (n : ℕ) : (pairIndices n).Nodup := by
  unfold pairIndices
  rw [List.nodup_flatten]
  constructor
  · intro l hl
    rw [List.mem_map] at hl
    obtain ⟨i, hi, rfl⟩ := hl
    refine List.Nodup.map ?_ ((List.nodup_range n).filter _)
    intro a b hab
    simpa using hab
  · rw [List.pairwise_map]
    refine (List.pairwise_lt_range n).imp ?_
    intro a b hab x hxa hxb
    simp only [List.mem_map, List.mem_filter] at hxa hxb
    obtain ⟨ja, _, rfl⟩ := hxa
    obtain ⟨jb, _, he⟩ := hxb
    exact Nat.ne_of_lt hab (congrArg Prod.fst he).symm

/-- The pair list built by folding the loop body equals the filtered,
mapped index list: a pair record is appended exactly for the visited
index pairs whose similarity strictly exceeds the threshold. -/
lemma dedup_foldl_fst (t : ℚ) (sim : ℕ → ℕ → ℚ) (slugs : List String) :
    ∀ (l : List (ℕ × ℕ)) (acc : List DupPair) (ms : List ℚ),
      (l.foldl (dedupStep t sim slugs) (acc, ms)).1 =
        acc ++ (l.filter (fun p => decide (t < sim p.1 p.2))).map
          (mkDupPair t sim slugs) := by
  intro l
  induction l with
  | nil => intro acc ms; simp
  | cons p l ih =>
    intro acc ms
    rw [List.foldl_cons]
    by_cases h : t < sim p.1 p.2
    · rw [show dedupStep t sim slugs (acc, ms) p =
          (acc ++ [mkDupPair t sim slugs p],
           (dedupStep t sim slugs (acc, ms) p).2) from by
        simp [dedupStep, h]]
      rw [ih]
      simp [h]
    · rw [show dedupStep t sim slugs (acc, ms) p =
          (acc, (dedupStep t sim slugs (acc, ms) p).2) from by
        simp [dedupStep, h]]
      rw [ih]
      simp [h]

/-- Characterization of `analyze`'s duplicate-pair list for batches of
at least two documents. -/
lemma analyze_pairs_eq (t : ℚ) (sim : ℕ → ℕ → ℚ) (articles : List ArticleData)
    (h2 : 2 ≤ articles.length) :
    (DeduplicationEngine.analyze t sim articles).duplicate_pairs =
      ((pairIndices articles.length).filter (fun p => decide (t < sim p.1 p.2))).map
        (mkDupPair t sim (articles.map ArticleData.slug)) := by
  unfold DeduplicationEngine.analyze
  rw [if_neg (by omega)]
  exact dedup_foldl_fst t sim _ _ [] _

/-- A duplicate-free list all of whose elements coincide has at most
one element. -/
lemma length_le_one_of_nodup_all_eq {α : Type} {l : List α} (hl : l.Nodup)
    {a : α} (h : ∀ x ∈ l, x = a) : l.length ≤ 1 := by
  match l with
  | [] => simp
  | [x] => simp
  | x :: y :: tl =>
    exfalso
    have hx := h x (by simp)
    have hy := h y (by simp)
    rw [List.nodup_cons] at hl
    apply hl.1
    rw [hx, ← hy]
    exact List.mem_cons_self _ _

/-- In a duplicate-free slug list, positions are recoverable from the
slugs. -/
lemma getD_inj {l : List String} (h : l.Nodup) {i j : ℕ} (hi : i < l.length)
    (hj : j < l.length) (he : l.getD i "" = l.getD j "") : i = j := by
  rw [List.getD_eq_getElem l "" hi, List.getD_eq_getElem l "" hj] at he
  exact (List.Nodup.getElem_inj_iff h).1 he

/-- C3: for a batch of at least two articles with pairwise-distinct
slugs, the unordered pair `(i, j)` (`i < j`) appears in the
duplicate-pair list iff its similarity strictly exceeds the threshold
(membership read off the two slug fields), and at most one emitted
pair mentions that unordered slug pair. -/
theorem duplicate_pairs_strict_threshold
    (t : ℚ) (sim : ℕ → ℕ → ℚ) (articles : List ArticleData)
    (hnd : (articles.map ArticleData.slug).Nodup)
    (hlen : 2 ≤ articles.length) (i j : ℕ) (hij : i < j)
    (hj : j < articles.length) :
    ((∃ p ∈ (DeduplicationEngine.analyze t sim articles).duplicate_pairs,
        p.article_1 = (articles.map ArticleData.slug).getD i "" ∧
        p.article_2 = (articles.map ArticleData.slug).getD j "") ↔ t < sim i j) ∧
    (DeduplicationEngine.analyze t sim articles).duplicate_pairs.countP
      (fun p => decide ((p.article_1 = (articles.map ArticleData.slug).getD i "" ∧
                         p.article_2 = (articles.map ArticleData.slug).getD j "") ∨
                        (p.article_1 = (articles.map ArticleData.slug).getD j "" ∧
                         p.article_2 = (articles.map ArticleData.slug).getD i ""))) ≤ 1 := by
  have hi : i < articles.length := lt_trans hij hj
  have hlm : (articles.map ArticleData.slug).length = articles.length :=
    List.length_map articles ArticleData.slug
  rw [analyze_pairs_eq t sim articles hlen]
  constructor
  · constructor
    · rintro ⟨p, hp, e1, e2⟩
      rw [List.mem_map] at hp
      obtain ⟨q, hq, rfl⟩ := hp
      rw [List.mem_filter] at hq
      obtain ⟨hqm, hqc⟩ := hq
      rw [mem_pairIndices] at hqm
      simp only [mkDupPair] at e1 e2
      have hq1 : q.1 = i := getD_inj hnd (by omega) (by omega) e1
      have hq2 : q.2 = j := getD_inj hnd (by omega) (by omega) e2
      rw [← hq1, ← hq2]
      simpa using hqc
    · intro hlt
      refine ⟨mkDupPair t sim (articles.map ArticleData.slug) (i, j), ?_, ?_, ?_⟩
      · rw [List.mem_map]
        refine ⟨(i, j), ?_, rfl⟩
        rw [List.mem_filter]
        exact ⟨mem_pairIndices.2 ⟨hij, hj⟩, by simpa using hlt⟩
      · simp [mkDupPair]
      · simp [mkDupPair]
  · rw [List.countP_map]
    refine le_trans ((List.filter_sublist _).countP_le _) ?_
    rw [List.countP_eq_length_filter]
    refine length_le_one_of_nodup_all_eq
      ((pairIndices_nodup articles.length).filter _) (a := (i, j)) ?_
    intro x hx
    rw [List.mem_filter] at hx
    obtain ⟨hxm, hxq⟩ := hx
    rw [mem_pairIndices] at hxm
    simp only [Function.comp, mkDupPair, decide_eq_true_eq] at hxq
    rcases hxq with ⟨e1, e2⟩ | ⟨e1, e2⟩
    · have h1 : x.1 = i := getD_inj hnd (by omega) (by omega) e1
      have h2 : x.2 = j := getD_inj hnd (by omega) (by omega) e2
      exact Prod.ext h1 h2
    · have h1 : x.1 = j := getD_inj hnd (by omega) (by omega) e1
      have h2 : x.2 = i := getD_inj hnd (by omega) (by omega) e2
      exact absurd hij (by omega)

/-- Witness for C3: two distinct-slug documents of similarity 0.9
under threshold 0.85; the pair (0, 1) appears, exactly once. -/
theorem duplicate_pairs_strict_threshold_witness :
    ((∃ p ∈ (DeduplicationEngine.analyze (17/20) simNine [docA, docB]).duplicate_pairs,
        p.article_1 = ([docA, docB].map ArticleData.slug).getD 0 "" ∧
        p.article_2 = ([docA, docB].map ArticleData.slug).getD 1 "") ↔
      (17/20 : ℚ) < simNine 0 1) ∧
    (DeduplicationEngine.analyze (17/20) simNine [docA, docB]).duplicate_pairs.countP
      (fun p => decide ((p.article_1 = ([docA, docB].map ArticleData.slug).getD 0 "" ∧
                         p.article_2 = ([docA, docB].map ArticleData.slug).getD 1 "") ∨
                        (p.article_1 = ([docA, docB].map ArticleData.slug).getD 1 "" ∧
                         p.article_2 = ([docA, docB].map ArticleData.slug).getD 0 ""))) ≤ 1 :=
  duplicate_pairs_strict_threshold (17/20) simNine [docA, docB]
    (by decide) (by decide) 0 1 (by decide) (by decide)

end GeoGso
